import Mathlib

/-!
Verification of the CareTag access-session subsystem.

The definitions below are a shallow embedding of:
  * the client session lifecycle in `src/unnamed/part_000`
    (`useAccessSession`: `startSessionMutation`, `endSessionMutation`,
    the active-session query),
  * the row-level policies and the `has_active_session` SQL function in
    `src/supabase/migrations/20260202053819_*.sql`,
  * the `handle_new_user`, `promote_to_admin` and `demote_from_admin`
    functions in `src/supabase/migrations/20260204104315_*.sql`,
  * the tag-resolution flow `processScannedId` in
    `src/src/pages/ScanCareTag.tsx`.

Timestamps are modelled as natural numbers, user and patient identities as
natural numbers, and the `access_sessions` table as a list of rows.
-/

namespace CareTag

/-- Session status, from the SQL CHECK constraint
`status IN ('active', 'completed', 'expired')`. -/
inductive Status where
  | active
  | completed
  | expired
deriving DecidableEq, Repr

/-- One row of the `access_sessions` table. -/
structure Session where
  id : Nat
  doctor_id : Nat
  patient_id : Nat
  started_at : Nat
  ended_at : Option Nat
  status : Status
  notes : Option String
deriving DecidableEq, Repr

/-- The per-row effect of the first step of `startSessionMutation`:
`update {status: completed, ended_at: now} where doctor_id = d and status = active`. -/
def closeIfActive (d now : Nat) (s : Session) : Session :=
  if s.doctor_id = d ∧ s.status = Status.active then
    { s with status := Status.completed, ended_at := some now }
  else s

/-- The row inserted by `startSessionMutation`: status `active`, `started_at`
defaulting to now, `ended_at` and `notes` null. -/
def freshSession (d p now newId : Nat) : Session :=
  { id := newId, doctor_id := d, patient_id := p, started_at := now,
    ended_at := none, status := Status.active, notes := none }

/-- The mutation `startSessionMutation` from `useAccessSession`: first close all of the
doctor's active sessions, then insert a fresh row with status `active`. -/
def startSession (d p now newId : Nat) (tbl : List Session) : List Session :=
  tbl.map (closeIfActive d now) ++ [freshSession d p now newId]

/-- JavaScript `notes || null`: the empty string is falsy, so both an omitted
argument and `""` store null. -/
def notesOrNull (n : Option String) : Option String :=
  match n with
  | none => none
  | some s => if s = "" then none else some s

/-- The per-row effect of `endSessionMutation`:
`update {status: completed, ended_at: now, notes: notes || null} where id = sid`.
The update is unguarded by status. -/
def endSessionRow (sid now : Nat) (n : Option String) (s : Session) : Session :=
  if s.id = sid then
    { s with status := Status.completed, ended_at := some now, notes := notesOrNull n }
  else s

/-- The mutation `endSessionMutation` applied to the whole table. -/
def endSession (sid now : Nat) (n : Option String) (tbl : List Session) : List Session :=
  tbl.map (endSessionRow sid now n)

/-- SQL `ended_at IS NULL OR ended_at > now()`. -/
def endedAtOpen (now : Nat) (e : Option Nat) : Bool :=
  match e with
  | none => true
  | some t => decide (now < t)

/-- The row condition of the SQL function `has_active_session`:
doctor and patient match, `status = 'active'`, and
`(ended_at IS NULL OR ended_at > now())`. -/
def serverUsable (now d p : Nat) (s : Session) : Bool :=
  decide (s.doctor_id = d) && decide (s.patient_id = p) &&
    decide (s.status = Status.active) && endedAtOpen now s.ended_at

/-- SQL `has_active_session(_doctor_id, _patient_id)`: an EXISTS over the
table with the row condition above. -/
def has_active_session (d p now : Nat) (tbl : List Session) : Bool :=
  tbl.any (serverUsable now d p)

/-- The filter of the client-side active-session query in `useAccessSession`:
`.eq(doctor_id).eq(patient_id).eq(status, active).is(ended_at, null)`. -/
def clientActiveFilter (d p : Nat) (s : Session) : Bool :=
  decide (s.doctor_id = d) && decide (s.patient_id = p) &&
    decide (s.status = Status.active) && decide (s.ended_at = none)

/-- The client-side `getActiveSession` query (`maybeSingle` over the filter). -/
def getActiveSessionClient (d p : Nat) (tbl : List Session) : Option Session :=
  tbl.find? (clientActiveFilter d p)

/-- The spec's usability condition for a single session:
status = active AND (end timestamp unset OR end timestamp in the future). -/
def usableSpec (now : Nat) (s : Session) : Bool :=
  decide (s.status = Status.active) && endedAtOpen now s.ended_at

/-- Roles, from the SQL enum `app_role`. -/
inductive Role where
  | doctor
  | admin
deriving DecidableEq, Repr

/-- SQL `has_role(_user_id, _role)` over the `user_roles` table. -/
def has_role (roles : List (Nat × Role)) (u : Nat) (r : Role) : Bool :=
  roles.any (fun ur => decide (ur.1 = u) && decide (ur.2 = r))

/-- Outcome of a read request mediated by row-level security. -/
inductive ReadOutcome where
  | granted
  | forbidden
deriving DecidableEq, Repr

/-- The USING clause shared by the SELECT policies on `medical_records`,
`vitals`, `prescriptions`, `lab_results` and `emergency_records`:
`has_role(uid, admin) OR (has_role(uid, doctor) AND has_active_session(uid, patient_id))`. -/
def readSensitiveAllowed (roles : List (Nat × Role)) (u p now : Nat)
    (tbl : List Session) : Bool :=
  has_role roles u Role.admin ||
    (has_role roles u Role.doctor && has_active_session u p now tbl)

/-- A sensitive-record read as seen by the caller: row-level security either
returns the row or behaves as Forbidden. -/
def readSensitive (roles : List (Nat × Role)) (u p now : Nat)
    (tbl : List Session) : ReadOutcome :=
  if readSensitiveAllowed roles u p now tbl then ReadOutcome.granted
  else ReadOutcome.forbidden

/-- WITH CHECK of policy "Doctors can insert records with active session"
(`medical_records`): doctor role AND `doctor_id = auth.uid()` AND active session. -/
def medicalRecordsInsertAllowed (roles : List (Nat × Role)) (u recDoctor p now : Nat)
    (tbl : List Session) : Bool :=
  has_role roles u Role.doctor && decide (recDoctor = u) &&
    has_active_session u p now tbl

/-- WITH CHECK of policy "Doctors can insert vitals with active session"
(`vitals`): doctor role AND active session; no doctor-owner conjunct. -/
def vitalsInsertAllowed (roles : List (Nat × Role)) (u p now : Nat)
    (tbl : List Session) : Bool :=
  has_role roles u Role.doctor && has_active_session u p now tbl

/-- WITH CHECK of policy "Doctors can insert prescriptions with active session"
(`prescriptions`): doctor role AND `doctor_id = auth.uid()` AND active session. -/
def prescriptionsInsertAllowed (roles : List (Nat × Role)) (u recDoctor p now : Nat)
    (tbl : List Session) : Bool :=
  has_role roles u Role.doctor && decide (recDoctor = u) &&
    has_active_session u p now tbl

/-- WITH CHECK of policy "Doctors can insert lab results with active session"
(`lab_results`): doctor role AND active session; no doctor-owner conjunct. -/
def labResultsInsertAllowed (roles : List (Nat × Role)) (u p now : Nat)
    (tbl : List Session) : Bool :=
  has_role roles u Role.doctor && has_active_session u p now tbl

/-- WITH CHECK of policy "Doctors can insert emergency records with active session"
(`emergency_records`): doctor role AND active session; no doctor-owner conjunct. -/
def emergencyRecordsInsertAllowed (roles : List (Nat × Role)) (u p now : Nat)
    (tbl : List Session) : Bool :=
  has_role roles u Role.doctor && has_active_session u p now tbl

/-- USING of policy "Doctors can update records with active session"
(`medical_records`): `doctor_id = auth.uid()` AND active session; no role conjunct. -/
def medicalRecordsUpdateAllowed (u recDoctor p now : Nat) (tbl : List Session) : Bool :=
  decide (recDoctor = u) && has_active_session u p now tbl

/-- USING of policy "Doctors can update prescriptions with active session"
(`prescriptions`): `doctor_id = auth.uid()` AND active session; no role conjunct. -/
def prescriptionsUpdateAllowed (u recDoctor p now : Nat) (tbl : List Session) : Bool :=
  decide (recDoctor = u) && has_active_session u p now tbl

/-- USING of policy "Doctors can update lab results with active session"
(`lab_results`): doctor role AND active session; no doctor-owner conjunct. -/
def labResultsUpdateAllowed (roles : List (Nat × Role)) (u p now : Nat)
    (tbl : List Session) : Bool :=
  has_role roles u Role.doctor && has_active_session u p now tbl

/-- USING of policy "Doctors can update emergency records with active session"
(`emergency_records`): doctor role AND active session; no doctor-owner conjunct. -/
def emergencyRecordsUpdateAllowed (roles : List (Nat × Role)) (u p now : Nat)
    (tbl : List Session) : Bool :=
  has_role roles u Role.doctor && has_active_session u p now tbl

/-- The write condition the spec claims for every sensitive table: doctor role
AND the record's doctor-owner field equals the caller AND a usable session.
Stated from the spec's words, for comparison with the per-table policies. -/
def specWriteAllowed (roles : List (Nat × Role)) (u ownerField p now : Nat)
    (tbl : List Session) : Bool :=
  has_role roles u Role.doctor && decide (ownerField = u) &&
    has_active_session u p now tbl

/-- A new auth user as seen by the `handle_new_user` trigger: id, email and
the raw user metadata supplied by the signup payload (a key-value lookup). -/
structure NewUser where
  id : Nat
  email : String
  raw_user_meta_data : String → Option String

/-- One row of `profiles`. -/
structure Profile where
  id : Nat
  full_name : String
  email : String
deriving DecidableEq, Repr

/-- One row of `user_roles`. -/
structure UserRoleRow where
  user_id : Nat
  role : Role
deriving DecidableEq, Repr

/-- Trigger `handle_new_user` from the 20260204104315 migration: inserts a profile
whose name is `COALESCE(raw_user_meta_data ->> 'full_name', email)` and a
`user_roles` row with role hard-coded to `'doctor'`. -/
def handle_new_user (u : NewUser) : Profile × UserRoleRow :=
  ({ id := u.id,
     full_name := (u.raw_user_meta_data "full_name").getD u.email,
     email := u.email },
   { user_id := u.id, role := Role.doctor })

/-- An audit row: actor (`auth.uid()`), action string, target entity id. -/
structure AuditEntry where
  user_id : Nat
  action : String
  entity_id : Nat
deriving DecidableEq, Repr

/-- The role-management state: the `user_roles` table and the `audit_logs`
table. -/
structure RoleState where
  roles : List (Nat × Role)
  audit : List AuditEntry
deriving DecidableEq, Repr

/-- Errors raised by the role-management SQL functions. -/
inductive DbError where
  | Forbidden
  | InvalidOperation
deriving DecidableEq, Repr

/-- The per-row effect of the UPDATE in `demote_from_admin`:
`SET role = 'doctor' WHERE user_id = _user_id AND role = 'admin'`. -/
def demoteRow (target : Nat) (ur : Nat × Role) : Nat × Role :=
  if ur.1 = target ∧ ur.2 = Role.admin then (ur.1, Role.doctor) else ur

/-- Function `demote_from_admin(_user_id)`: raises unless the caller is admin, raises
on self-demotion, otherwise downgrades the target's admin role to doctor and
appends an audit row. Exceptions abort before any state change. -/
def demote_from_admin (caller target : Nat) (st : RoleState) :
    Except DbError RoleState :=
  if has_role st.roles caller Role.admin then
    if target = caller then
      Except.error DbError.InvalidOperation
    else
      Except.ok { roles := st.roles.map (demoteRow target),
                  audit := st.audit ++
                    [{ user_id := caller, action := "DEMOTE_FROM_ADMIN",
                       entity_id := target }] }
  else
    Except.error DbError.Forbidden

/-- One row of `patients`, restricted to the fields tag resolution uses. -/
structure Patient where
  id : Nat
  caretag_id : String
deriving DecidableEq, Repr

/-- Drop leading whitespace characters from a character list. -/
def dropLeadingWs : List Char → List Char
  | [] => []
  | c :: cs => if c.isWhitespace then dropLeadingWs cs else c :: cs

/-- JavaScript `String.prototype.trim()`: remove leading and trailing
whitespace. -/
def jsTrim (s : String) : String :=
  String.mk (dropLeadingWs (dropLeadingWs s.data.reverse).reverse)

/-- JavaScript `String.prototype.toUpperCase()` on the tag alphabet
(alphanumerics and dashes): character-wise upper-casing. -/
def jsToUpper (s : String) : String :=
  String.mk (s.data.map Char.toUpper)

/-- The normalization in `processScannedId`: `caretagId.trim().toUpperCase()`. -/
def normalizeTag (s : String) : String :=
  jsToUpper (jsTrim s)

/-- The patient lookup in `processScannedId`:
`.eq('caretag_id', scannedId).maybeSingle()`. -/
def lookupPatientByTag (tag : String) (ps : List Patient) : Option Patient :=
  ps.find? (fun p => decide (p.caretag_id = tag))

/-- Flow `processScannedId` (direct-scan mode) from `ScanCareTag.tsx`: normalize the
scanned id, look the patient up by it; if found, start a session for that
patient; otherwise insert a new patient whose `caretag_id` is the normalized
id, then start a session for the new patient. Returns the updated patients
table, the updated sessions table and the patient id the flow resolves to. -/
def processScannedId (input : String) (doctor now newSessionId newPatientId : Nat)
    (ps : List Patient) (tbl : List Session) :
    List Patient × List Session × Nat :=
  let scannedId := normalizeTag input
  match lookupPatientByTag scannedId ps with
  | some p => (ps, startSession doctor p.id now newSessionId tbl, p.id)
  | none =>
      (ps ++ [{ id := newPatientId, caretag_id := scannedId }],
       startSession doctor newPatientId now newSessionId tbl, newPatientId)

/-- States of the `access_sessions` table reachable from the empty table by
the two client mutations. -/
inductive Reachable : List Session → Prop where
  | init : Reachable []
  | start (d p now newId : Nat) (tbl : List Session) :
      Reachable tbl → Reachable (startSession d p now newId tbl)
  | finish (sid now : Nat) (n : Option String) (tbl : List Session) :
      Reachable tbl → Reachable (endSession sid now n tbl)

/-- One step of the session lifecycle (either mutation, any arguments). -/
inductive Step : List Session → List Session → Prop where
  | start (d p now newId : Nat) (tbl : List Session) :
      Step tbl (startSession d p now newId tbl)
  | finish (sid now : Nat) (n : Option String) (tbl : List Session) :
      Step tbl (endSession sid now n tbl)

/-- Whether a row is an active session of doctor `d`. -/
def isActiveOf (d : Nat) (s : Session) : Bool :=
  decide (s.doctor_id = d) && decide (s.status = Status.active)

/-- The active sessions of doctor `d` in the table. -/
def activeSessions (d : Nat) (tbl : List Session) : List Session :=
  tbl.filter (isActiveOf d)

/-- How many sessions of doctor `d` are active. -/
def activeCount (d : Nat) (tbl : List Session) : Nat :=
  (activeSessions d tbl).length

/-- Concrete row used by witnesses and counterexamples: an active session of
doctor 1 with patient 2 whose end timestamp lies in the future of instant 0. -/
def futureEndedRow : Session :=
  { id := 0, doctor_id := 1, patient_id := 2, started_at := 0,
    ended_at := some 10, status := Status.active, notes := none }

/-- An active session of doctor 1 with patient 2, end timestamp unset. -/
def activeNullRow : Session :=
  { id := 3, doctor_id := 1, patient_id := 2, started_at := 0,
    ended_at := none, status := Status.active, notes := none }

/-- An expired session of doctor 1 with patient 2. -/
def expiredRow : Session :=
  { id := 5, doctor_id := 1, patient_id := 2, started_at := 0,
    ended_at := some 1, status := Status.expired, notes := none }

/-- An active session of doctor 1 with patient 2 carrying stored notes. -/
def notedRow : Session :=
  { id := 4, doctor_id := 1, patient_id := 2, started_at := 0,
    ended_at := none, status := Status.active, notes := some "old" }

/-- The session row as left by ending `freshSession 1 2 0 0` at time 7. -/
def endedAt7Row : Session :=
  { freshSession 1 2 0 0 with
      status := Status.completed, ended_at := some 7 }

/-- The session row as left by ending `notedRow` at time 9 with no notes. -/
def erasedNotesRow : Session :=
  { notedRow with
      status := Status.completed, ended_at := some 9, notes := none }

lemma isActiveOf_closeIfActive_self (d now : Nat) (s : Session) :
    isActiveOf d (closeIfActive d now s) = false := by
  unfold closeIfActive isActiveOf
  split
  · simp
  · rename_i h
    by_cases hd : s.doctor_id = d
    · have hs : ¬ s.status = Status.active := fun ha => h ⟨hd, ha⟩
      simp [hs]
    · simp [hd]

lemma isActiveOf_closeIfActive_other (d d' now : Nat) (h : d ≠ d') (s : Session) :
    isActiveOf d (closeIfActive d' now s) = isActiveOf d s := by
  unfold closeIfActive isActiveOf
  split
  · rename_i hc
    have hd : ¬ s.doctor_id = d := fun he => h (he.symm.trans hc.1)
    simp [hd]
  · rfl

lemma isActiveOf_endSessionRow (d sid now : Nat) (n : Option String) (s : Session)
    (h : isActiveOf d (endSessionRow sid now n s) = true) :
    isActiveOf d s = true := by
  revert h
  unfold endSessionRow isActiveOf
  split
  · simp
  · exact id

lemma length_filter_map_eq (f : Session → Session) (p : Session → Bool)
    (h : ∀ s, p (f s) = p s) (tbl : List Session) :
    ((tbl.map f).filter p).length = (tbl.filter p).length := by
  induction tbl with
  | nil => rfl
  | cons s rest ih =>
    simp only [List.map_cons, List.filter_cons, h s]
    cases hp : p s <;> simp [ih]

lemma length_filter_map_le (f : Session → Session) (p : Session → Bool)
    (h : ∀ s, p (f s) = true → p s = true) (tbl : List Session) :
    ((tbl.map f).filter p).length ≤ (tbl.filter p).length := by
  induction tbl with
  | nil => exact Nat.le_refl _
  | cons s rest ih =>
    simp only [List.map_cons, List.filter_cons]
    cases hfs : p (f s) with
    | true =>
      rw [h s hfs]
      simpa using Nat.succ_le_succ ih
    | false =>
      cases hp : p s <;> simp <;> omega

lemma activeSessions_startSession_self (d p now nid : Nat) (tbl : List Session) :
    activeSessions d (startSession d p now nid tbl) = [freshSession d p now nid] := by
  unfold activeSessions startSession
  rw [List.filter_append]
  have h1 : (tbl.map (closeIfActive d now)).filter (isActiveOf d) = [] := by
    rw [List.filter_eq_nil_iff]
    intro a ha
    rcases List.mem_map.mp ha with ⟨s, _, rfl⟩
    simp [isActiveOf_closeIfActive_self]
  rw [h1]
  simp [isActiveOf, freshSession]

lemma activeCount_startSession_other (d d' p now nid : Nat) (h : d ≠ d')
    (tbl : List Session) :
    activeCount d (startSession d' p now nid tbl) = activeCount d tbl := by
  unfold activeCount activeSessions startSession
  rw [List.filter_append, List.length_append,
      length_filter_map_eq _ _ (isActiveOf_closeIfActive_other d d' now h)]
  have hne : ¬ d' = d := fun he => h he.symm
  have hrow : isActiveOf d (freshSession d' p now nid) = false := by
    simp [isActiveOf, freshSession, hne]
  simp [hrow]

lemma activeCount_endSession_le (d sid now : Nat) (n : Option String)
    (tbl : List Session) :
    activeCount d (endSession sid now n tbl) ≤ activeCount d tbl := by
  unfold activeCount activeSessions endSession
  exact length_filter_map_le _ _ (isActiveOf_endSessionRow d sid now n) tbl

lemma active_le_one_of_reachable (tbl : List Session) (h : Reachable tbl) :
    ∀ d, activeCount d tbl ≤ 1 := by
  induction h with
  | init => intro d; exact Nat.zero_le 1
  | start d' p now nid tbl _ ih =>
    intro d
    by_cases hd : d = d'
    · subst hd
      unfold activeCount
      rw [activeSessions_startSession_self]
      exact Nat.le_refl 1
    · rw [activeCount_startSession_other d d' p now nid hd]
      exact ih d
  | finish sid now n tbl _ ih =>
    intro d
    exact Nat.le_trans (activeCount_endSession_le d sid now n tbl) (ih d)

lemma endSessionRow_id (sid now : Nat) (n : Option String) (s : Session) :
    (endSessionRow sid now n s).id = s.id := by
  unfold endSessionRow
  split <;> rfl

lemma closeIfActive_of_not_active (d now : Nat) (s : Session)
    (h : ¬ s.status = Status.active) : closeIfActive d now s = s := by
  unfold closeIfActive
  rw [if_neg]
  exact fun hc => h hc.2

lemma has_active_session_startSession_self (d p now nid : Nat)
    (tbl : List Session) :
    has_active_session d p now (startSession d p now nid tbl) = true := by
  unfold has_active_session startSession
  rw [List.any_append]
  have hrow : serverUsable now d p (freshSession d p now nid) = true := by
    simp [serverUsable, freshSession, endedAtOpen]
  simp [hrow]

/-- Claim C1: in every reachable state each doctor has at most one active
session; `startSession(D, P)` closes all of D's active sessions and inserts
one new active session, so afterwards exactly one session of D is active and
its patient is P (the fresh row, whose `patient_id` is P). -/
theorem claim1_single_active_session (tbl : List Session) (h : Reachable tbl) :
    (∀ d, activeCount d tbl ≤ 1) ∧
    (∀ d p now nid, activeSessions d (startSession d p now nid tbl) =
      [freshSession d p now nid]) ∧
    (∀ d p now nid, (freshSession d p now nid).patient_id = p) :=
  ⟨active_le_one_of_reachable tbl h,
   fun d p now nid => activeSessions_startSession_self d p now nid tbl,
   fun _ _ _ _ => rfl⟩

theorem claim1_single_active_session_witness :
    activeCount 1 (startSession 1 2 0 0 []) ≤ 1 :=
  (claim1_single_active_session (startSession 1 2 0 0 [])
    (Reachable.start 1 2 0 0 [] Reachable.init)).1 1

/-- Claim C2: a sensitive-record read by user U on patient P is granted
unconditionally when U holds the admin role; when U holds only the doctor
role it is granted precisely when `has_active_session(U, P)` holds; a user
holding neither role is denied with Forbidden. -/
theorem claim2_read_policy (roles : List (Nat × Role)) (u p now : Nat)
    (tbl : List Session) :
    (has_role roles u Role.admin = true →
      readSensitive roles u p now tbl = ReadOutcome.granted) ∧
    (has_role roles u Role.admin = false → has_role roles u Role.doctor = true →
      (readSensitive roles u p now tbl = ReadOutcome.granted ↔
        has_active_session u p now tbl = true)) ∧
    (has_role roles u Role.admin = false → has_role roles u Role.doctor = false →
      readSensitive roles u p now tbl = ReadOutcome.forbidden) := by
  refine ⟨?_, ?_, ?_⟩
  · intro ha
    simp [readSensitive, readSensitiveAllowed, ha]
  · intro ha hd
    simp only [readSensitive, readSensitiveAllowed, ha, hd, Bool.false_or,
      Bool.true_and]
    cases hs : has_active_session u p now tbl <;> simp [hs]
  · intro ha hd
    simp [readSensitive, readSensitiveAllowed, ha, hd]

theorem claim2_read_policy_witness :
    readSensitive [(1, Role.admin)] 1 2 0 [] = ReadOutcome.granted :=
  (claim2_read_policy [(1, Role.admin)] 1 2 0 []).1 (by decide)

/-- Claim C3 counterexample: a session with status active and a future end
timestamp satisfies the spec's usability condition, and the server-side
`has_active_session` accepts it; but the client-side query filter requires
`ended_at IS NULL` and rejects it, so the client query does not decide the
spec's condition. -/
theorem claim3_client_query_counterexample :
    usableSpec 0 futureEndedRow = true ∧
    has_active_session 1 2 0 [futureEndedRow] = true ∧
    clientActiveFilter 1 2 futureEndedRow = false ∧
    getActiveSessionClient 1 2 [futureEndedRow] = none := by decide

/-- Claim C3 amended: the server-side `has_active_session` decides exactly
status = active AND (end timestamp unset OR in the future) for the matching
doctor and patient; the client-side active-session query additionally
requires the end timestamp to be unset, so any session it returns satisfies
the spec's condition (it is sound but stricter). -/
theorem claim3_usable_session_amended (now d p : Nat) (tbl : List Session) :
    (has_active_session d p now tbl =
      tbl.any (fun s => decide (s.doctor_id = d) && decide (s.patient_id = p) &&
        usableSpec now s)) ∧
    (∀ s, getActiveSessionClient d p tbl = some s →
      serverUsable now d p s = true ∧ usableSpec now s = true) := by
  constructor
  · unfold has_active_session
    refine congrArg (List.any tbl) (funext fun s => ?_)
    unfold serverUsable usableSpec
    rw [Bool.and_assoc]
  · intro s hs
    have hps := List.find?_some hs
    unfold clientActiveFilter at hps
    simp only [Bool.and_eq_true, decide_eq_true_eq] at hps
    obtain ⟨⟨⟨h1, h2⟩, h3⟩, h4⟩ := hps
    constructor
    · simp [serverUsable, h1, h2, h3, h4, endedAtOpen]
    · simp [usableSpec, h3, h4, endedAtOpen]

theorem claim3_usable_session_amended_witness :
    serverUsable 0 1 2 activeNullRow = true ∧ usableSpec 0 activeNullRow = true :=
  (claim3_usable_session_amended 0 1 2 [activeNullRow]).2 activeNullRow (by decide)

/-- Claim C4 counterexample: the vitals INSERT policy checks only the doctor
role and an active session, with no doctor-owner conjunct; with caller 1
holding the doctor role and an active session for patient 2, a vitals write
whose owner field is 2 (not the caller) is allowed, while the claimed
condition (owner field = caller) evaluates to false. -/
theorem claim4_write_policy_counterexample :
    vitalsInsertAllowed [(1, Role.doctor)] 1 2 0 [activeNullRow] = true ∧
    specWriteAllowed [(1, Role.doctor)] 1 2 2 0 [activeNullRow] = false := by
  decide

/-- Claim C4 amended: inserts on medical records and prescriptions require
doctor role AND owner field = caller AND active session; inserts on vitals,
lab results and emergency records require only doctor role AND active
session; updates on medical records and prescriptions require owner field =
caller AND active session (no role conjunct); updates on lab results and
emergency records require doctor role AND active session (no owner
conjunct). -/
theorem claim4_write_policy_amended (roles : List (Nat × Role))
    (u ownerField p now : Nat) (tbl : List Session) :
    (medicalRecordsInsertAllowed roles u ownerField p now tbl = true ↔
      has_role roles u Role.doctor = true ∧ ownerField = u ∧
        has_active_session u p now tbl = true) ∧
    (prescriptionsInsertAllowed roles u ownerField p now tbl = true ↔
      has_role roles u Role.doctor = true ∧ ownerField = u ∧
        has_active_session u p now tbl = true) ∧
    (vitalsInsertAllowed roles u p now tbl = true ↔
      has_role roles u Role.doctor = true ∧
        has_active_session u p now tbl = true) ∧
    (labResultsInsertAllowed roles u p now tbl = true ↔
      has_role roles u Role.doctor = true ∧
        has_active_session u p now tbl = true) ∧
    (emergencyRecordsInsertAllowed roles u p now tbl = true ↔
      has_role roles u Role.doctor = true ∧
        has_active_session u p now tbl = true) ∧
    (medicalRecordsUpdateAllowed u ownerField p now tbl = true ↔
      ownerField = u ∧ has_active_session u p now tbl = true) ∧
    (prescriptionsUpdateAllowed u ownerField p now tbl = true ↔
      ownerField = u ∧ has_active_session u p now tbl = true) ∧
    (labResultsUpdateAllowed roles u p now tbl = true ↔
      has_role roles u Role.doctor = true ∧
        has_active_session u p now tbl = true) ∧
    (emergencyRecordsUpdateAllowed roles u p now tbl = true ↔
      has_role roles u Role.doctor = true ∧
        has_active_session u p now tbl = true) := by
  unfold medicalRecordsInsertAllowed prescriptionsInsertAllowed
    vitalsInsertAllowed labResultsInsertAllowed emergencyRecordsInsertAllowed
    medicalRecordsUpdateAllowed prescriptionsUpdateAllowed
    labResultsUpdateAllowed emergencyRecordsUpdateAllowed
  simp only [Bool.and_eq_true, decide_eq_true_eq]
  tauto

/-- Claim C5: `handle_new_user` stores role doctor for every new account,
and its result depends only on the `full_name` metadata key, so a
client-supplied role value (such as role admin in the signup payload) is
never read. -/
theorem claim5_new_user_role :
    (∀ u : NewUser, (handle_new_user u).2.role = Role.doctor) ∧
    (∀ (i : Nat) (e : String) (m1 m2 : String → Option String),
      m1 "full_name" = m2 "full_name" →
        handle_new_user ⟨i, e, m1⟩ = handle_new_user ⟨i, e, m2⟩) := by
  constructor
  · intro u
    rfl
  · intro i e m1 m2 h
    unfold handle_new_user
    dsimp only
    rw [h]

theorem claim5_new_user_role_witness :
    handle_new_user ⟨7, "a@b",
        fun k => if k = "role" then some "admin" else none⟩ =
      handle_new_user ⟨7, "a@b", fun _ => none⟩ :=
  claim5_new_user_role.2 7 "a@b"
    (fun k => if k = "role" then some "admin" else none) (fun _ => none)
    (by decide)

/-- Claim C6 counterexample: ending session 0 at time 3 and again at time 7
leaves `ended_at = some 7` — the second call's time, not the first's — since
the update is unguarded by status and overwrites the end timestamp. -/
theorem claim6_end_twice_counterexample :
    endSession 0 7 none (endSession 0 3 none [freshSession 1 2 0 0]) =
      [endedAt7Row] ∧
    ¬ (endSession 0 7 none
        (endSession 0 3 none [freshSession 1 2 0 0])).map Session.ended_at =
      [some 3] := by
  decide

/-- Claim C6 amended: `endSession` called twice on the same session id
succeeds both times and leaves the session with status completed and end
timestamp set at the second call's time, each call unconditionally
overwriting `ended_at`. -/
theorem claim6_end_twice_amended (tbl : List Session) (sid t1 t2 : Nat)
    (n1 n2 : Option String) (s : Session)
    (hs : s ∈ endSession sid t2 n2 (endSession sid t1 n1 tbl))
    (hid : s.id = sid) :
    s.status = Status.completed ∧ s.ended_at = some t2 := by
  rcases List.mem_map.mp hs with ⟨s1, _, rfl⟩
  have h1 : s1.id = sid := by
    rw [← endSessionRow_id sid t2 n2 s1]
    exact hid
  constructor <;> simp [endSessionRow, h1]

theorem claim6_end_twice_amended_witness :
    endedAt7Row.status = Status.completed ∧ endedAt7Row.ended_at = some 7 :=
  claim6_end_twice_amended [freshSession 1 2 0 0] 0 3 7 none none
    endedAt7Row (by decide) (by decide)

/-- Claim C7 counterexample: a session with status expired does not keep its
status — calling `endSession` on its id is a lifecycle step that sets the
status to completed, leaving the terminal state expired. -/
theorem claim7_terminal_counterexample :
    expiredRow.status = Status.expired ∧
    Step [expiredRow] (endSession 5 9 none [expiredRow]) ∧
    (endSession 5 9 none [expiredRow]).map Session.status =
      [Status.completed] :=
  ⟨rfl, Step.finish 5 9 none [expiredRow], by decide⟩

/-- Claim C7 amended: a completed session's status survives every lifecycle
step (startSession only touches active sessions, and endSession re-sets
completed), and startSession also preserves expired statuses; only
endSession called on an expired session's id changes a terminal status. -/
theorem claim7_terminal_amended :
    (∀ tbl tbl', Step tbl tbl' → ∀ s ∈ tbl, s.status = Status.completed →
      ∃ s' ∈ tbl', s'.id = s.id ∧ s'.status = Status.completed) ∧
    (∀ d p now nid tbl, ∀ s ∈ tbl, s.status = Status.expired →
      ∃ s' ∈ startSession d p now nid tbl,
        s'.id = s.id ∧ s'.status = Status.expired) := by
  constructor
  · intro tbl tbl' hstep s hmem hcomp
    cases hstep with
    | start d p now nid tbl =>
      refine ⟨closeIfActive d now s, ?_, ?_⟩
      · exact List.mem_append_left _ (List.mem_map_of_mem _ hmem)
      · rw [closeIfActive_of_not_active d now s (by rw [hcomp]; simp)]
        exact ⟨rfl, hcomp⟩
    | finish sid now n tbl =>
      refine ⟨endSessionRow sid now n s, List.mem_map_of_mem _ hmem, ?_, ?_⟩
      · exact endSessionRow_id sid now n s
      · by_cases h : s.id = sid <;> simp [endSessionRow, h, hcomp]
  · intro d p now nid tbl s hmem hexp
    refine ⟨closeIfActive d now s, ?_, ?_⟩
    · exact List.mem_append_left _ (List.mem_map_of_mem _ hmem)
    · rw [closeIfActive_of_not_active d now s (by rw [hexp]; simp)]
      exact ⟨rfl, hexp⟩

theorem claim7_terminal_amended_witness :
    ∃ s' ∈ endSession 9 9 none [{ expiredRow with status := Status.completed }],
      s'.id = ({ expiredRow with status := Status.completed } : Session).id ∧
      s'.status = Status.completed :=
  claim7_terminal_amended.1 [{ expiredRow with status := Status.completed }]
    (endSession 9 9 none [{ expiredRow with status := Status.completed }])
    (Step.finish 9 9 none [{ expiredRow with status := Status.completed }])
    { expiredRow with status := Status.completed } (by decide) (by decide)

/-- Claim C8: `demote_from_admin` fails with Forbidden when the caller does
not hold the admin role; fails with InvalidOperation on self-demotion (with
no condition on other admins, so also when the caller is the only admin);
otherwise it succeeds, downgrading the target's role to doctor exactly when
that role was admin and leaving other role rows unchanged, and appends an
audit entry recording actor and target. -/
theorem claim8_demote (caller target : Nat) (st : RoleState) :
    (has_role st.roles caller Role.admin = false →
      demote_from_admin caller target st = Except.error DbError.Forbidden) ∧
    (has_role st.roles caller Role.admin = true → target = caller →
      demote_from_admin caller target st =
        Except.error DbError.InvalidOperation) ∧
    (has_role st.roles caller Role.admin = true → ¬ target = caller →
      demote_from_admin caller target st =
        Except.ok { roles := st.roles.map (demoteRow target), audit := st.audit ++ [{ user_id := caller, action := "DEMOTE_FROM_ADMIN", entity_id := target }] } ∧
      ∀ u r, (u, r) ∈ st.roles →
        (u = target ∧ r = Role.admin →
          (u, Role.doctor) ∈ st.roles.map (demoteRow target)) ∧
        (¬ (u = target ∧ r = Role.admin) →
          (u, r) ∈ st.roles.map (demoteRow target))) := by
  refine ⟨?_, ?_, ?_⟩
  · intro ha
    simp [demote_from_admin, ha]
  · intro ha ht
    simp [demote_from_admin, ha, ht]
  · intro ha ht
    refine ⟨by simp [demote_from_admin, ha, ht], ?_⟩
    intro u r hmem
    constructor
    · intro hur
      have : demoteRow target (u, r) = (u, Role.doctor) := by
        simp [demoteRow, hur.1, hur.2]
      exact this ▸ List.mem_map_of_mem _ hmem
    · intro hur
      have : demoteRow target (u, r) = (u, r) := by
        unfold demoteRow
        rw [if_neg]
        exact hur
      exact this ▸ List.mem_map_of_mem _ hmem

theorem claim8_demote_witness :
    demote_from_admin 1 1 ⟨[(1, Role.admin)], []⟩ =
      Except.error DbError.InvalidOperation ∧
    demote_from_admin 2 1 ⟨[(1, Role.admin)], []⟩ =
      Except.error DbError.Forbidden :=
  ⟨(claim8_demote 1 1 ⟨[(1, Role.admin)], []⟩).2.1 (by decide) rfl,
   (claim8_demote 2 1 ⟨[(1, Role.admin)], []⟩).1 (by decide)⟩

/-- Claim C9: `processScannedId` normalizes the scanned string by trimming
and upper-casing; if a patient whose stored tag equals the normalized string
exists it starts a session for that patient (leaving the patients table
unchanged), and otherwise it creates a patient whose tag is the normalized
string and starts a session for it; in both branches the doctor ends up with
an active session for the resolved patient. -/
theorem claim9_tag_resolution (input : String) (doctor now nsid npid : Nat)
    (ps : List Patient) (tbl : List Session) :
    (∀ p, lookupPatientByTag (normalizeTag input) ps = some p →
      processScannedId input doctor now nsid npid ps tbl =
        (ps, startSession doctor p.id now nsid tbl, p.id) ∧
      p.caretag_id = normalizeTag input ∧
      has_active_session doctor p.id now
        (startSession doctor p.id now nsid tbl) = true) ∧
    (lookupPatientByTag (normalizeTag input) ps = none →
      processScannedId input doctor now nsid npid ps tbl =
        (ps ++ [{ id := npid, caretag_id := normalizeTag input }],
         startSession doctor npid now nsid tbl, npid) ∧
      has_active_session doctor npid now
        (startSession doctor npid now nsid tbl) = true) := by
  constructor
  · intro p hp
    refine ⟨by simp [processScannedId, hp], ?_, ?_⟩
    · have := List.find?_some hp
      simpa using this
    · exact has_active_session_startSession_self doctor p.id now nsid tbl
  · intro hp
    refine ⟨by simp [processScannedId, hp], ?_⟩
    exact has_active_session_startSession_self doctor npid now nsid tbl

theorem claim9_tag_resolution_witness :
    (processScannedId " ab1 " 1 0 0 9 [⟨7, "AB1"⟩] [] =
      ([⟨7, "AB1"⟩], startSession 1 7 0 0 [], 7) ∧
     (⟨7, "AB1"⟩ : Patient).caretag_id = normalizeTag " ab1 " ∧
     has_active_session 1 7 0 (startSession 1 7 0 0 []) = true) :=
  (claim9_tag_resolution " ab1 " 1 0 0 9 [⟨7, "AB1"⟩] []).1 ⟨7, "AB1"⟩
    (by decide)

/-- Claim C10: `endSession` unconditionally overwrites the target session's
notes and end timestamp: with the notes argument omitted or equal to the
empty string, the stored notes become null (erasing any previously stored
notes) and `ended_at` becomes the call's time. -/
theorem claim10_end_overwrites (tbl : List Session) (sid now : Nat)
    (s : Session) :
    (s ∈ endSession sid now none tbl → s.id = sid →
      s.notes = none ∧ s.ended_at = some now) ∧
    (s ∈ endSession sid now (some "") tbl → s.id = sid →
      s.notes = none ∧ s.ended_at = some now) := by
  constructor
  · intro hs hid
    rcases List.mem_map.mp hs with ⟨s0, _, rfl⟩
    have h0 : s0.id = sid := by
      rw [← endSessionRow_id sid now none s0]
      exact hid
    constructor <;> simp [endSessionRow, h0, notesOrNull]
  · intro hs hid
    rcases List.mem_map.mp hs with ⟨s0, _, rfl⟩
    have h0 : s0.id = sid := by
      rw [← endSessionRow_id sid now (some "") s0]
      exact hid
    constructor <;> simp [endSessionRow, h0, notesOrNull]

theorem claim10_end_overwrites_witness :
    erasedNotesRow.notes = none ∧ erasedNotesRow.ended_at = some 9 :=
  (claim10_end_overwrites [notedRow] 4 9 erasedNotesRow).1
    (by decide) (by decide)

end CareTag
